import Mathlib

/-!
Verification of the Snowflake GDPR right-to-be-forgotten demo client
(`gdpr_demo.py`) and its setup script (`setup_snowflake_demo.py`).

The Python code is shallowly embedded: every database interaction
(cursor open/close, `execute`, `call`, `fetchall`), console print, log
call and SQL-file read becomes an `Event` in an explicit trace, and the
outcome of each remote interaction is supplied by a small per-operation
oracle structure (the remote warehouse is external to the repository).
Python strings are modelled as `String`/`List Char`; `str.strip`,
`str.split` and the `in` operator are re-implemented below with the
CPython semantics the source relies on.
-/

namespace GdprRtbf

/-- Database-driver exceptions, modelled by their message text. -/
abbrev Exn := String

/-- A row returned by a dict cursor: column name to rendered value. -/
abbrev Row := List (String × String)

/-- The whitespace characters recognised by Python `str.strip()`
(ASCII fragment; the inputs of this repository are ASCII SQL). -/
def isPySpace (c : Char) : Bool :=
  c = ' ' || c = '\t' || c = '\n' || c = '\r' || c = '\x0b' || c = '\x0c'

/-- Python `s.strip()`: drop leading and trailing whitespace. -/
def pyStrip (l : List Char) : List Char :=
  ((l.dropWhile isPySpace).reverse.dropWhile isPySpace).reverse

/-- Python `pat in s`: does `pat` occur as a contiguous substring? -/
def occursIn (pat : List Char) : List Char → Bool
  | [] => pat.isEmpty
  | c :: rest => pat.isPrefixOf (c :: rest) || occursIn pat rest

/-- Worker for Python `s.split(sep)`: greedy left-to-right scan with
matches consumed without overlap.  The first argument counts characters
of an already-recognised separator that remain to be discarded, which
keeps the recursion structural on the scanned list. -/
def pySplitGo (sep : List Char) : Nat → List Char → List (List Char)
  | _, [] => [[]]
  | k + 1, _ :: rest => pySplitGo sep k rest
  | 0, c :: rest =>
    if !sep.isEmpty && sep.isPrefixOf (c :: rest) then
      [] :: pySplitGo sep (sep.length - 1) rest
    else
      match pySplitGo sep 0 rest with
      | [] => [[c]]
      | s :: ss => (c :: s) :: ss

/-- Python `s.split(sep)` for a non-empty separator. -/
def pySplitL (sep l : List Char) : List (List Char) := pySplitGo sep 0 l

/-- Python `pat in s` at `String` level. -/
def containsS (s sub : String) : Bool := occursIn sub.data s.data

/-- Python `line.endswith(suf)`. -/
def pyEndsWith (l suf : List Char) : Bool := suf.isSuffixOf l

/-- Join segments back with the separator (inverse of `pySplitL`). -/
def joinWith (sep : List Char) : List (List Char) → List Char
  | [] => []
  | [s] => s
  | s :: ss => s ++ sep ++ joinWith sep ss

/-- Does the text contain a non-whitespace character?  Equivalently
(lemma `pyStrip_ne_nil_iff` below): is it non-empty after stripping. -/
def hasNonSpace (l : List Char) : Bool := l.any (fun c => !isPySpace c)

/-!
## Events and oracles

An `Event` records one observable action of the Python code: a database
interaction, a console print, a structured-log call, or a SQL-file read.
Console decoration (colorama codes, emoji) is elided from the recorded
message texts.  `failMsg` is the print emitted from inside an
`except`-handler (the red failure message); prints on ordinary control
paths are recorded as `msg`.
-/

inductive Event where
  | openCursor : Event
  | closeCursor : Event
  | execSql : String → Event
  | callProc : String → List String → Event
  | fetchAll : Event
  | msg : String → Event
  | failMsg : String → Event
  | logErr : String → Event
  | readSql : String → Event
  deriving DecidableEq

/-- Is the outcome of a fallible external step a success? -/
def isOkE {ε α : Type} : Except ε α → Bool
  | .ok _ => true
  | .error _ => false

def isFailEvent : Event → Bool
  | .failMsg _ => true
  | _ => false

def isLogEvent : Event → Bool
  | .logErr _ => true
  | _ => false

def isExecEvent : Event → Bool
  | .execSql _ => true
  | _ => false

def isOpenEvent : Event → Bool
  | .openCursor => true
  | _ => false

def isCloseEvent : Event → Bool
  | .closeCursor => true
  | _ => false

def isReadEvent : Event → Bool
  | .readSql _ => true
  | _ => false

/-- The SQL-file paths read by a trace. -/
def readPaths : List Event → List String
  | [] => []
  | .readSql p :: t => p :: readPaths t
  | _ :: t => readPaths t

/-- The stored-procedure names called by a trace. -/
def procCalls : List Event → List String
  | [] => []
  | .callProc n _ :: t => n :: procCalls t
  | _ :: t => procCalls t

/-- Cursor-discipline automaton: tracks how many cursors are open, and
fails (`none`) as soon as a second cursor is opened while one is still
open, or a close happens with no cursor open. -/
def cursorStep : Option Nat → Event → Option Nat
  | some d, .openCursor => if d = 0 then some 1 else none
  | some d, .closeCursor => if d = 1 then some 0 else none
  | acc, _ => acc

def cursorRun (t : List Event) : Option Nat := t.foldl cursorStep (some 0)

/-- At every point of the trace at most one cursor is open. -/
def singleCursor (t : List Event) : Bool := (cursorRun t).isSome

/-- The trace opens and closes cursors in a balanced, one-at-a-time way. -/
def cursorsClosed (t : List Event) : Bool := cursorRun t = some 0

/-!
## `gdpr_demo.py` — `SnowflakeGDPRDemo`

Each method becomes a function from its inputs and an oracle (the
outcomes of its remote interactions) to its Python return value paired
with the trace of events it performs.  `execute_query` and
`execute_procedure` re-raise after logging, which is modelled by an
`Except` result; the public operations catch every driver exception and
return a default, so they return plain values.
-/

/-- `SnowflakeGDPRDemo.execute_query` (gdpr_demo.py:89-104): open a dict
cursor, execute, fetch all rows, close; on failure log twice and
re-raise (the cursor is not closed on the failure path). -/
def execute_query (query : String) (res : Except Exn (List Row)) :
    Except Exn (List Row) × List Event :=
  match res with
  | .ok rows => (.ok rows, [.openCursor, .execSql query, .fetchAll, .closeCursor])
  | .error e => (.error e,
      [.openCursor, .execSql query,
       .logErr ("Query execution failed: " ++ e),
       .logErr ("Query: " ++ query)])

/-- `SnowflakeGDPRDemo.execute_procedure` (gdpr_demo.py:106-119): open a
cursor, `cursor.call`, close; on failure log twice and re-raise. -/
def execute_procedure (procedure_name : String) (params : List String)
    (res : Except Exn (List String)) : Except Exn (List String) × List Event :=
  match res with
  | .ok r => (.ok r, [.openCursor, .callProc procedure_name params, .closeCursor])
  | .error e => (.error e,
      [.openCursor, .callProc procedure_name params,
       .logErr ("Procedure execution failed: " ++ e),
       .logErr ("Procedure: " ++ procedure_name)])

/-- The stray query executed (and fetched) by `discover_customer_data`
before the discovery procedure is called (gdpr_demo.py:129). -/
def resultScanQuery : String := "SELECT * FROM TABLE(RESULT_SCAN(LAST_QUERY_ID()))"

/-- The unused local `query` assigned at gdpr_demo.py:127. -/
def discoverCallQueryText : String := "CALL SP_DISCOVER_CUSTOMER_DATA(%s)"

/-- Outcomes of the three remote interactions `discover_customer_data`
performs: the `RESULT_SCAN` query (via `execute_query`), then
`cursor.call("SP_DISCOVER_CUSTOMER_DATA", ...)`, then `fetchall`. -/
structure DiscoverOracle where
  resultScanRes : Except Exn (List Row)
  callRes : Except Exn Unit
  fetchRes : Except Exn (List Row)

/-- `SnowflakeGDPRDemo.discover_customer_data` (gdpr_demo.py:121-164).
Note the source's order: it runs `execute_query` on the `RESULT_SCAN`
query (discarding the rows) before calling the discovery procedure on a
fresh cursor and fetching that cursor's results.  The pandas summary
prints are collapsed into fixed `msg` events. -/
def discover_customer_data (customer_email : String) (o : DiscoverOracle) :
    List Row × List Event :=
  let hdr := [Event.msg ("Discovering personal data for: " ++ customer_email)]
  match execute_query resultScanQuery o.resultScanRes with
  | (.error e, t) =>
      ([], hdr ++ t ++
        [.logErr ("Data discovery failed: " ++ e),
         .failMsg ("Data discovery failed: " ++ e)])
  | (.ok _, t) =>
    match o.callRes with
    | .error e =>
        ([], hdr ++ t ++
          [.openCursor, .callProc "SP_DISCOVER_CUSTOMER_DATA" [customer_email],
           .logErr ("Data discovery failed: " ++ e),
           .failMsg ("Data discovery failed: " ++ e)])
    | .ok _ =>
      match o.fetchRes with
      | .error e =>
          ([], hdr ++ t ++
            [.openCursor, .callProc "SP_DISCOVER_CUSTOMER_DATA" [customer_email],
             .fetchAll,
             .logErr ("Data discovery failed: " ++ e),
             .failMsg ("Data discovery failed: " ++ e)])
      | .ok results =>
        let t2 := hdr ++ t ++
          [.openCursor, .callProc "SP_DISCOVER_CUSTOMER_DATA" [customer_email],
           .fetchAll, .closeCursor]
        if results.isEmpty then
          ([], t2 ++ [.msg ("No personal data found for " ++ customer_email)])
        else
          (results, t2 ++ [.msg "Data Discovery Results:", .msg "Discovery Summary:"])

/-- Oracle for an operation whose only remote interaction is one
`cursor.call` returning a result row (a list of rendered values). -/
structure CallOracle where
  callRes : Except Exn (List String)

/-- `str(result[0]) if result else "Unknown result"` (gdpr_demo.py:178,
205, 323). -/
def resultMessage (result : List String) : String :=
  match result with
  | [] => "Unknown result"
  | r :: _ => r

/-- `SnowflakeGDPRDemo.submit_erasure_request` (gdpr_demo.py:166-193).
`result_message = str(result[0]) if result else "Unknown result"`; a
message containing `"SUCCESS"` yields `result_message.split("ID: ")[-1]`
when `"ID: "` occurs in it and `"Unknown"` otherwise; any other message,
and any driver exception, yields `None`. -/
def submit_erasure_request (customer_email reason : String) (o : CallOracle) :
    Option String × List Event :=
  let hdr := [Event.msg ("Submitting erasure request for: " ++ customer_email),
              Event.msg ("   Reason: " ++ reason)]
  match o.callRes with
  | .error e =>
      (none, hdr ++
        [.openCursor, .callProc "SP_SUBMIT_ERASURE_REQUEST" [customer_email, reason, "API"],
         .logErr ("Erasure request submission failed: " ++ e),
         .failMsg ("Erasure request submission failed: " ++ e)])
  | .ok result =>
    let result_message := resultMessage result
    let t := hdr ++
      [.openCursor, .callProc "SP_SUBMIT_ERASURE_REQUEST" [customer_email, reason, "API"],
       .closeCursor]
    if containsS result_message "SUCCESS" then
      let request_id :=
        if containsS result_message "ID: " then
          String.mk ((pySplitL "ID: ".data result_message.data).getLastD [])
        else "Unknown"
      (some request_id,
       t ++ [.msg "Erasure request submitted successfully",
             .msg ("   Request ID: " ++ request_id)])
    else
      (none, t ++ [.msg ("Failed to submit erasure request: " ++ result_message)])

/-- `SnowflakeGDPRDemo.process_erasure_request` (gdpr_demo.py:195-217). -/
def process_erasure_request (request_id : String) (o : CallOracle) :
    Bool × List Event :=
  let hdr := [Event.msg ("Processing erasure request: " ++ request_id)]
  match o.callRes with
  | .error e =>
      (false, hdr ++
        [.openCursor, .callProc "SP_PROCESS_ERASURE_REQUEST" [request_id],
         .logErr ("Erasure request processing failed: " ++ e),
         .failMsg ("Erasure request processing failed: " ++ e)])
  | .ok result =>
    let result_message := resultMessage result
    let t := hdr ++
      [.openCursor, .callProc "SP_PROCESS_ERASURE_REQUEST" [request_id], .closeCursor]
    if containsS result_message "SUCCESS" then
      (true, t ++ [.msg "Erasure request processed successfully"])
    else
      (false, t ++ [.msg ("Failed to process erasure request: " ++ result_message)])

/-- Outcomes of `verify_deletion`'s two remote interactions: the
`cursor.call` and the subsequent `fetchall` on the same cursor. -/
structure VerifyOracle where
  callRes : Except Exn Unit
  fetchRes : Except Exn (List Row)

/-- `SnowflakeGDPRDemo.verify_deletion` (gdpr_demo.py:219-253); the
per-table verification summary prints are collapsed into `msg` events. -/
def verify_deletion (customer_email : String) (hours_back : Nat) (o : VerifyOracle) :
    List Row × List Event :=
  let hdr := [Event.msg ("Verifying deletion for: " ++ customer_email)]
  match o.callRes with
  | .error e =>
      ([], hdr ++
        [.openCursor, .callProc "SP_VERIFY_DELETION" [customer_email, toString hours_back],
         .logErr ("Deletion verification failed: " ++ e),
         .failMsg ("Deletion verification failed: " ++ e)])
  | .ok _ =>
    match o.fetchRes with
    | .error e =>
        ([], hdr ++
          [.openCursor, .callProc "SP_VERIFY_DELETION" [customer_email, toString hours_back],
           .fetchAll,
           .logErr ("Deletion verification failed: " ++ e),
           .failMsg ("Deletion verification failed: " ++ e)])
    | .ok results =>
      let t := hdr ++
        [.openCursor, .callProc "SP_VERIFY_DELETION" [customer_email, toString hours_back],
         .fetchAll, .closeCursor]
      if results.isEmpty then
        ([], t ++ [.msg "No verification data available"])
      else
        (results, t ++ [.msg "Deletion Verification Results:", .msg "verification summary"])

/-- Oracle for an operation whose only remote interaction is one
`execute_query`. -/
structure QueryOracle where
  queryRes : Except Exn (List Row)

/-- The dashboard view query (gdpr_demo.py:260). -/
def dashboardQuery : String := "SELECT * FROM VW_GDPR_COMPLIANCE_DASHBOARD"

/-- `SnowflakeGDPRDemo.get_compliance_dashboard` (gdpr_demo.py:255-285);
the per-metric prints are collapsed into one `msg` event. -/
def get_compliance_dashboard (o : QueryOracle) : Row × List Event :=
  let hdr := [Event.msg "Loading GDPR Compliance Dashboard"]
  match execute_query dashboardQuery o.queryRes with
  | (.error e, t) =>
      ([], hdr ++ t ++
        [.logErr ("Failed to load compliance dashboard: " ++ e),
         .failMsg ("Failed to load compliance dashboard: " ++ e)])
  | (.ok results, t) =>
    match results with
    | [] => ([], hdr ++ t ++ [.msg "No compliance data available"])
    | dashboard_data :: _ =>
        (dashboard_data, hdr ++ t ++ [.msg "GDPR Compliance Status:"])

/-- The fixed part of the recent-erasure-requests query
(gdpr_demo.py:290-296); newlines and indentation follow the source's
triple-quoted literal. -/
def erasureRequestsQueryPrefix : String :=
  "\n            SELECT request_id, customer_email, status, erasure_reason, \n                   requested_at, estimated_completion_date, \n                   DATEDIFF('day', requested_at, CURRENT_TIMESTAMP()) as days_since_request\n            FROM ERASURE_REQUESTS \n            ORDER BY requested_at DESC \n            LIMIT "

/-- The recent-erasure-requests query (gdpr_demo.py:290-297), an
f-string over `limit`. -/
def erasureRequestsQuery (limit : Nat) : String :=
  erasureRequestsQueryPrefix ++ toString limit ++ "\n            "

/-- `SnowflakeGDPRDemo.get_erasure_requests` (gdpr_demo.py:287-311).
Its `except`-handler only logs; unlike every other operation it prints
no failure message. -/
def get_erasure_requests (limit : Nat) (o : QueryOracle) :
    List Row × List Event :=
  match execute_query (erasureRequestsQuery limit) o.queryRes with
  | (.error e, t) =>
      ([], t ++ [.logErr ("Failed to get erasure requests: " ++ e)])
  | (.ok results, t) =>
    if results.isEmpty then
      ([], t ++ [.msg "No erasure requests found"])
    else
      (results, t ++ [.msg "Recent Erasure Requests:"])

/-- `SnowflakeGDPRDemo.coordinate_third_party_deletion`
(gdpr_demo.py:313-336). -/
def coordinate_third_party_deletion (customer_email : String) (o : CallOracle) :
    Bool × List Event :=
  let hdr := [Event.msg ("Coordinating third-party deletion for: " ++ customer_email)]
  match o.callRes with
  | .error e =>
      (false, hdr ++
        [.openCursor, .callProc "SP_COORDINATE_THIRD_PARTY_DELETION" [customer_email],
         .logErr ("Third-party coordination failed: " ++ e),
         .failMsg ("Third-party coordination failed: " ++ e)])
  | .ok result =>
    let result_message := resultMessage result
    let t := hdr ++
      [.openCursor, .callProc "SP_COORDINATE_THIRD_PARTY_DELETION" [customer_email],
       .closeCursor]
    if containsS result_message "SUCCESS" then
      (true, t ++ [.msg "Third-party coordination initiated", .msg ("   " ++ result_message)])
    else
      (false, t ++ [.msg ("Third-party coordination failed: " ++ result_message)])

/-- The compliance-status scalar-function query (gdpr_demo.py:341). -/
def complianceStatusQuery : String :=
  "SELECT FN_CHECK_GDPR_COMPLIANCE_STATUS(%s) as compliance_status"

/-- Outcomes of `check_customer_compliance_status`'s fallible steps: the
query (via `execute_query`) and the `json.loads` of the returned status
column (which can itself raise inside the same `try`). -/
structure ComplianceOracle where
  queryRes : Except Exn (List Row)
  jsonRes : Except Exn (List (String × String))

/-- `SnowflakeGDPRDemo.check_customer_compliance_status`
(gdpr_demo.py:338-366); the per-field prints are collapsed into one
`msg` event. -/
def check_customer_compliance_status (customer_email : String) (o : ComplianceOracle) :
    List (String × String) × List Event :=
  match execute_query complianceStatusQuery o.queryRes with
  | (.error e, t) =>
      ([], t ++
        [.logErr ("Failed to check compliance status: " ++ e),
         .failMsg ("Failed to check compliance status: " ++ e)])
  | (.ok results, t) =>
    match results with
    | [] => ([], t ++ [.msg ("No compliance data found for " ++ customer_email)])
    | _ :: _ =>
      match o.jsonRes with
      | .error e =>
          ([], t ++
            [.logErr ("Failed to check compliance status: " ++ e),
             .failMsg ("Failed to check compliance status: " ++ e)])
      | .ok compliance_data =>
          (compliance_data,
           t ++ [.msg ("GDPR Compliance Status for " ++ customer_email ++ ":")])

/-!
## `gdpr_demo.py` — CLI surface

The click commands (gdpr_demo.py:451-590).  Each command is recorded as
its name, the options it parses, and the names of the
`SnowflakeGDPRDemo` methods its body invokes (after `load_config` and
`connect`, inside `try/finally disconnect`).
-/

/-- The public methods of `SnowflakeGDPRDemo` that commands dispatch to. -/
def demoMethods : List String :=
  ["discover_customer_data", "submit_erasure_request", "process_erasure_request",
   "verify_deletion", "get_compliance_dashboard", "get_erasure_requests",
   "coordinate_third_party_deletion", "check_customer_compliance_status",
   "run_full_demo_scenario"]

structure CliCommand where
  name : String
  options : List String
  dispatch : List String
  deriving DecidableEq

/-- The click command group (gdpr_demo.py:451-590).  click derives the
command names `request-erasure` and `full-demo` from the function names
`request_erasure` and `full_demo`.  The `interactive` command drives a
menu loop, modelled separately by `interactiveRun`. -/
def cliCommands : List CliCommand :=
  [⟨"discover", ["customer-email"], ["discover_customer_data"]⟩,
   ⟨"request-erasure", ["customer-email", "reason"], ["submit_erasure_request"]⟩,
   ⟨"full-demo", ["customer-email"], ["run_full_demo_scenario"]⟩,
   ⟨"dashboard", [], ["get_compliance_dashboard", "get_erasure_requests"]⟩,
   ⟨"verify", ["customer-email"], ["verify_deletion"]⟩,
   ⟨"interactive", [], []⟩]

/-- One iteration of the interactive menu (gdpr_demo.py:559-585): which
demo methods a given choice dispatches to. -/
def interactiveDispatch (choice : String) : List String :=
  if choice = "1" then ["discover_customer_data"]
  else if choice = "2" then ["submit_erasure_request"]
  else if choice = "3" then ["get_compliance_dashboard"]
  else if choice = "4" then ["verify_deletion"]
  else if choice = "5" then ["run_full_demo_scenario"]
  else if choice = "6" then ["check_customer_compliance_status"]
  else if choice = "7" then ["get_erasure_requests"]
  else []

/-- The interactive loop over a stream of menu choices; `"0"` exits. -/
def interactiveRun : List String → List String
  | [] => []
  | c :: rest => if c = "0" then [] else interactiveDispatch c ++ interactiveRun rest

/-!
## `setup_snowflake_demo.py` — `SnowflakeSetup`
-/

/-- `SnowflakeSetup._parse_sql_statements` state: accumulated
statements, the statement being built, and whether we are inside a
`$$ ... $$` procedure body. -/
structure ParseState where
  statements : List (List Char)
  current : List Char
  inProcedure : Bool
  deriving DecidableEq

/-- One line of `SnowflakeSetup._parse_sql_statements`
(setup_snowflake_demo.py:92-113): strip the line; skip it when blank or
a `--` comment; otherwise append it to the current statement and decide
whether a statement (or `$$` block) is complete. -/
def parseLine (st : ParseState) (rawLine : List Char) : ParseState :=
  let line := pyStrip rawLine
  if line.isEmpty || "--".data.isPrefixOf line then st
  else
    let cur := st.current ++ line ++ ['\n']
    if occursIn "$$".data line then
      if st.inProcedure then
        { statements := st.statements ++ [pyStrip cur], current := [], inProcedure := false }
      else
        { st with current := cur, inProcedure := true }
    else if !st.inProcedure && pyEndsWith line ";".data then
      { st with statements := st.statements ++ [pyStrip cur], current := [] }
    else
      { st with current := cur }

/-- `SnowflakeSetup._parse_sql_statements`
(setup_snowflake_demo.py:85-119): fold `parseLine` over
`sql_content.split('\n')`, flush any remaining text, and keep the
non-empty statements. -/
def parse_sql_statements (sql : List Char) : List (List Char) :=
  let fin := (pySplitL ['\n'] sql).foldl parseLine ⟨[], [], false⟩
  let stmts :=
    if (pyStrip fin.current).isEmpty then fin.statements
    else fin.statements ++ [pyStrip fin.current]
  stmts.filter (fun s => !s.isEmpty)

/-- The executor's skip test (setup_snowflake_demo.py:64):
`not statement or statement.upper().startswith(('--', '/*'))`
(upper-casing does not change either marker). -/
def skipStmt (stmt : List Char) : Bool :=
  stmt.isEmpty || "--".data.isPrefixOf stmt || "/*".data.isPrefixOf stmt

/-- Outcomes of one `execute_sql_file` run: the file read (`.error
true` models `FileNotFoundError`, `.error false` any other failure
outside the per-statement loop) and the outcome of executing each
statement, by its position in the parsed list. -/
structure FileOracle where
  content : Except Bool String
  execOut : Nat → Option Exn

/-- The per-statement loop of `execute_sql_file`
(setup_snowflake_demo.py:63-72): skipped statements are not executed;
an executed statement that fails produces a warning print and the loop
continues with the remaining statements. -/
def runStatements (execOut : Nat → Option Exn) : Nat → List (List Char) → List Event
  | _, [] => []
  | i, stmt :: rest =>
    if skipStmt stmt then runStatements execOut (i + 1) rest
    else
      match execOut i with
      | none =>
          .execSql (String.mk stmt) :: .msg "   statement executed"
            :: runStatements execOut (i + 1) rest
      | some e =>
          .execSql (String.mk stmt) :: .failMsg ("   Statement warning: " ++ e)
            :: runStatements execOut (i + 1) rest

/-- `SnowflakeSetup.execute_sql_file` (setup_snowflake_demo.py:50-83):
read the file, parse it, run every statement (failures only warn), and
return `True`; return `False` only when the read itself fails. -/
def execute_sql_file (file_path description : String) (o : FileOracle) :
    Bool × List Event :=
  let hdr := [Event.msg ("Executing " ++ description ++ "...")]
  match o.content with
  | .error true =>
      (false, hdr ++ [.readSql file_path, .failMsg ("File not found: " ++ file_path)])
  | .error false =>
      (false, hdr ++ [.readSql file_path, .failMsg ("Failed to execute " ++ description)])
  | .ok sql =>
    let statements := parse_sql_statements sql.data
    (true,
     hdr ++ [.readSql file_path, .openCursor]
         ++ runStatements o.execOut 0 statements
         ++ [.closeCursor, .msg (description ++ " completed successfully")])

/-- `SnowflakeSetup.setup_databases_and_schemas`
(setup_snowflake_demo.py:121-124). -/
def setup_databases_and_schemas (o : FileOracle) : Bool × List Event :=
  execute_sql_file "setup/snowflake_setup.sql" "Database and Schema Setup" o

/-- `SnowflakeSetup.setup_procedures_and_functions`
(setup_snowflake_demo.py:126-129). -/
def setup_procedures_and_functions (o : FileOracle) : Bool × List Event :=
  execute_sql_file "setup/gdpr_procedures.sql" "GDPR Procedures and Functions" o

/-- `SnowflakeSetup.setup_security_policies`
(setup_snowflake_demo.py:131-134). -/
def setup_security_policies (o : FileOracle) : Bool × List Event :=
  execute_sql_file "setup/security_policies.sql" "Security Policies and Views" o

/-- `SnowflakeSetup.setup_demo_data` (setup_snowflake_demo.py:136-139). -/
def setup_demo_data (o : FileOracle) : Bool × List Event :=
  execute_sql_file "setup/demo_data.sql" "Demo Data" o

/-- The six verification checks of `SnowflakeSetup.verify_setup`
(setup_snowflake_demo.py:145-152). -/
def verificationQueries : List (String × String) :=
  [("Databases", "SHOW DATABASES LIKE '%_DB'"),
   ("Warehouses", "SHOW WAREHOUSES LIKE 'GDPR_%'"),
   ("Procedures", "SHOW PROCEDURES LIKE 'SP_%'"),
   ("Views", "SHOW VIEWS LIKE 'VW_%'"),
   ("Demo Customers", "SELECT COUNT(*) as customer_count FROM CUSTOMER_DATA_DB.CORE.CUSTOMERS"),
   ("Erasure Requests", "SELECT COUNT(*) as request_count FROM COMPLIANCE_DB.REQUESTS.ERASURE_REQUESTS")]

/-- The check loop of `verify_setup` (setup_snowflake_demo.py:157-171):
a failing check prints and clears `all_passed` but the loop continues. -/
def runVerifyQueries (queryRes : Nat → Except Exn (List Row)) :
    Nat → List (String × String) → Bool × List Event
  | _, [] => (true, [])
  | i, (check_name, q) :: rest =>
    let r := runVerifyQueries queryRes (i + 1) rest
    match queryRes i with
    | .ok _ => (r.1, [.execSql q, .fetchAll, .msg ("   " ++ check_name)] ++ r.2)
    | .error e =>
        (false, [.execSql q, .msg ("   " ++ check_name ++ ": Failed - " ++ e)] ++ r.2)

/-- `SnowflakeSetup.verify_setup` (setup_snowflake_demo.py:141-180). -/
def verify_setup (queryRes : Nat → Except Exn (List Row)) : Bool × List Event :=
  let r := runVerifyQueries queryRes 0 verificationQueries
  (r.1,
   [Event.msg "Verifying setup...", .openCursor] ++ r.2 ++ [.closeCursor,
    .msg (if r.1 then "Setup verification completed successfully"
          else "Setup verification completed with warnings")])

/-- Outcomes of a full setup run: one file oracle per setup SQL file
and the verification query outcomes. -/
structure FullSetupOracle where
  f1 : FileOracle
  f2 : FileOracle
  f3 : FileOracle
  f4 : FileOracle
  verifyRes : Nat → Except Exn (List Row)

/-- `SnowflakeSetup.run_full_setup` (setup_snowflake_demo.py:182-212):
run the five steps in order, aborting (returning `False`) at the first
step that reports failure. -/
def run_full_setup (o : FullSetupOracle) : Bool × List Event :=
  let r1 := setup_databases_and_schemas o.f1
  if !r1.1 then (false, r1.2 ++ [.failMsg "Setup failed at: 1. Databases and Schemas"])
  else
    let r2 := setup_procedures_and_functions o.f2
    if !r2.1 then (false, r1.2 ++ r2.2 ++ [.failMsg "Setup failed at: 2. GDPR Procedures"])
    else
      let r3 := setup_security_policies o.f3
      if !r3.1 then
        (false, r1.2 ++ r2.2 ++ r3.2 ++ [.failMsg "Setup failed at: 3. Security Policies"])
      else
        let r4 := setup_demo_data o.f4
        if !r4.1 then
          (false, r1.2 ++ r2.2 ++ r3.2 ++ r4.2 ++ [.failMsg "Setup failed at: 4. Demo Data"])
        else
          let r5 := verify_setup o.verifyRes
          if !r5.1 then
            (false, r1.2 ++ r2.2 ++ r3.2 ++ r4.2 ++ r5.2
              ++ [.failMsg "Setup failed at: 5. Setup Verification"])
          else
            (true, r1.2 ++ r2.2 ++ r3.2 ++ r4.2 ++ r5.2
              ++ [.msg "SNOWFLAKE GDPR DEMO SETUP COMPLETED SUCCESSFULLY!"])

/-- The `.env` file written by the setup `main` on success
(setup_snowflake_demo.py:279-290): the f-string with the provided
account, user, password (in plain text) and role substituted in. -/
def envFileContent (account user password role : String) : String :=
  "# Snowflake GDPR Demo Configuration\n"
    ++ "SNOWFLAKE_ACCOUNT=" ++ account ++ "\n"
    ++ "SNOWFLAKE_USER=" ++ user ++ "\n"
    ++ "SNOWFLAKE_PASSWORD=" ++ password ++ "\n"
    ++ "SNOWFLAKE_WAREHOUSE=GDPR_PROCESSING_WH\n"
    ++ "SNOWFLAKE_DATABASE=COMPLIANCE_DB\n"
    ++ "SNOWFLAKE_SCHEMA=REQUESTS\n"
    ++ "SNOWFLAKE_ROLE=" ++ role ++ "\n"

/-- Environment of one run of the setup script's `main`: whether the
four required SQL files exist, whether `connect` succeeds, and the full
setup's oracles.  Credentials are taken after prompting has resolved
them (empty string models a still-missing value, which Python's
`all([...])` treats as falsy). -/
structure MainOracle where
  filesPresent : Bool
  connectOk : Bool
  setup : FullSetupOracle

/-- `main` of `setup_snowflake_demo.py` (lines 237-300), reduced to its
observable outcome: the `.env` file contents if one is written, and
whether the run succeeds (exits zero).  The `.env` file is written
exactly when the required files exist, the credentials are complete,
`connect` succeeds and `run_full_setup` returns `True`. -/
def setupMain (account user password role : String) (o : MainOracle) :
    Option String × Bool :=
  if !o.filesPresent then (none, false)
  else if account = "" || user = "" || password = "" then (none, false)
  else if !o.connectOk then (none, false)
  else if (run_full_setup o.setup).1 then
    (some (envFileContent account user password role), true)
  else (none, false)

/-!
## Derived notions used by the claims
-/

/-- The parser keeps a raw line exactly when its stripped form is
non-blank and is not a `--` comment (setup_snowflake_demo.py:96-97). -/
def keepLine (rawLine : List Char) : Bool :=
  !((pyStrip rawLine).isEmpty || "--".data.isPrefixOf (pyStrip rawLine))

/-- How many statements the executor loop attempts and fails on:
positions `i` in the parsed list that are not skipped and whose
execution outcome is an exception. -/
def failedExecCount (execOut : Nat → Option Exn) : Nat → List (List Char) → Nat
  | _, [] => 0
  | i, stmt :: rest =>
    if skipStmt stmt then failedExecCount execOut (i + 1) rest
    else (if (execOut i).isSome then 1 else 0) + failedExecCount execOut (i + 1) rest

/-- The remote interface surface listed in spec.md section 6. -/
def specRemoteObjects : List String :=
  ["SP_DISCOVER_CUSTOMER_DATA", "SP_SUBMIT_ERASURE_REQUEST",
   "SP_PROCESS_ERASURE_REQUEST", "SP_VERIFY_DELETION",
   "SP_COORDINATE_THIRD_PARTY_DELETION", "FN_CHECK_GDPR_COMPLIANCE_STATUS",
   "VW_GDPR_COMPLIANCE_DASHBOARD"]

/-- The warehouse objects the demo client actually names, read off the
client source: the five procedures passed to `cursor.call`, the
function and view in `complianceStatusQuery` and `dashboardQuery`, and
the `ERASURE_REQUESTS` table read directly by `get_erasure_requests`
(gdpr_demo.py:294).  Built-in SQL engine functions appearing in query
text (`RESULT_SCAN`, `LAST_QUERY_ID`, `DATEDIFF`, `CURRENT_TIMESTAMP`)
are not warehouse objects and are not listed. -/
def clientRemoteObjects : List String :=
  ["SP_DISCOVER_CUSTOMER_DATA", "SP_SUBMIT_ERASURE_REQUEST",
   "SP_PROCESS_ERASURE_REQUEST", "SP_VERIFY_DELETION",
   "SP_COORDINATE_THIRD_PARTY_DELETION", "FN_CHECK_GDPR_COMPLIANCE_STATUS",
   "VW_GDPR_COMPLIANCE_DASHBOARD", "ERASURE_REQUESTS"]

/-- The four SQL files of the setup (setup_snowflake_demo.py:242-247). -/
def setupSqlPaths : List String :=
  ["setup/snowflake_setup.sql", "setup/gdpr_procedures.sql",
   "setup/security_policies.sql", "setup/demo_data.sql"]

/-- A concrete all-success oracle for `discover_customer_data`, used to
exhibit the order of its remote interactions. -/
def discoverProbe : DiscoverOracle :=
  ⟨.ok [], .ok (), .ok [[("RECORDS_FOUND", "3")]]⟩

/-- A file oracle whose file reads as empty and whose statements all
succeed. -/
def trivialFileOracle : FileOracle := ⟨.ok "", fun _ => none⟩

/-- A `main` environment in which everything succeeds. -/
def okMainOracle : MainOracle :=
  ⟨true, true,
   ⟨trivialFileOracle, trivialFileOracle, trivialFileOracle, trivialFileOracle,
    fun _ => .ok []⟩⟩

/-!
## Lemmas about the Python string primitives
-/

theorem eq_append_of_isPrefixOf {l s : List Char} (h : l.isPrefixOf s = true) :
    s = l ++ s.drop l.length := by
  induction l generalizing s with
  | nil => simp
  | cons a as ih =>
    cases s with
    | nil => simp [List.isPrefixOf] at h
    | cons b bs =>
      simp only [List.isPrefixOf, Bool.and_eq_true, beq_iff_eq] at h
      obtain ⟨rfl, h2⟩ := h
      simpa using ih h2

theorem pySplitGo_skip (sep : List Char) (k : Nat) (l : List Char) :
    pySplitGo sep k l = pySplitGo sep 0 (l.drop k) := by
  induction k generalizing l with
  | zero => simp
  | succ k ih =>
    cases l with
    | nil => rfl
    | cons c rest =>
      show pySplitGo sep k rest = _
      rw [ih, List.drop_succ_cons]

theorem pySplitL_cons (sep : List Char) (c : Char) (rest : List Char) :
    pySplitL sep (c :: rest) =
      if !sep.isEmpty && sep.isPrefixOf (c :: rest) then
        [] :: pySplitL sep (rest.drop (sep.length - 1))
      else
        match pySplitL sep rest with
        | [] => [[c]]
        | s :: ss => (c :: s) :: ss := by
  show pySplitGo sep 0 (c :: rest) = _
  rw [pySplitGo, pySplitGo_skip]
  rfl

theorem pySplitL_ne_nil (sep l : List Char) : pySplitL sep l ≠ [] := by
  cases l with
  | nil => simp [pySplitL, pySplitGo]
  | cons c rest =>
    rw [pySplitL_cons]
    split
    · simp
    · split <;> simp

theorem pySplitL_join (sep : List Char) (l : List Char) :
    joinWith sep (pySplitL sep l) = l := by
  match l with
  | [] => rfl
  | c :: rest =>
    rw [pySplitL_cons]
    by_cases h : (!sep.isEmpty && sep.isPrefixOf (c :: rest)) = true
    · rw [if_pos h]
      obtain ⟨h1, h2⟩ := by
        simpa only [Bool.and_eq_true] using h
      have hsep : sep ≠ [] := by
        simpa [List.isEmpty_iff] using h1
      obtain ⟨m, hm⟩ : ∃ m, sep.length = m + 1 := by
        cases sep with
        | nil => exact absurd rfl hsep
        | cons x xs => exact ⟨xs.length, rfl⟩
      have hdec := eq_append_of_isPrefixOf h2
      rw [hm] at hdec
      simp only [List.drop_succ_cons] at hdec
      have ih := pySplitL_join sep (rest.drop (sep.length - 1))
      cases hS : pySplitL sep (rest.drop (sep.length - 1)) with
      | nil => exact absurd hS (pySplitL_ne_nil _ _)
      | cons s ss =>
        rw [hS] at ih
        show [] ++ sep ++ joinWith sep (s :: ss) = c :: rest
        rw [List.nil_append, ih, hm]
        simp only [Nat.add_sub_cancel]
        exact hdec.symm
    · rw [if_neg h]
      have ih := pySplitL_join sep rest
      cases hS : pySplitL sep rest with
      | nil => exact absurd hS (pySplitL_ne_nil _ _)
      | cons s ss =>
        rw [hS] at ih
        cases ss with
        | nil =>
          show joinWith sep [c :: s] = c :: rest
          have hs : s = rest := by simpa [joinWith] using ih
          simp [joinWith, hs]
        | cons s2 ss2 =>
          show (c :: s) ++ sep ++ joinWith sep (s2 :: ss2) = c :: rest
          have hr : s ++ sep ++ joinWith sep (s2 :: ss2) = rest := by
            simpa [joinWith] using ih
          simpa using hr
termination_by l.length
decreasing_by
  all_goals simp only [List.length_drop, List.length_cons]
  all_goals omega

theorem pySplitL_no_occurs {sep l : List Char} (h : occursIn sep l = false) :
    pySplitL sep l = [l] := by
  induction l with
  | nil => simp [pySplitL, pySplitGo]
  | cons c rest ih =>
    simp only [occursIn, Bool.or_eq_false_iff] at h
    obtain ⟨hpre, hrest⟩ := h
    rw [pySplitL_cons, if_neg (by simp [hpre]), ih hrest]

theorem pySplitL_getLastD_not_occurs (sep l : List Char) (hsep : sep ≠ []) :
    occursIn sep ((pySplitL sep l).getLastD []) = false := by
  match l with
  | [] =>
    cases sep with
    | nil => exact absurd rfl hsep
    | cons x xs => rfl
  | c :: rest =>
    rw [pySplitL_cons]
    by_cases h : (!sep.isEmpty && sep.isPrefixOf (c :: rest)) = true
    · rw [if_pos h]
      have ih := pySplitL_getLastD_not_occurs sep (rest.drop (sep.length - 1)) hsep
      cases hS : pySplitL sep (rest.drop (sep.length - 1)) with
      | nil => exact absurd hS (pySplitL_ne_nil _ _)
      | cons s ss =>
        rw [hS] at ih
        simpa only [List.getLastD_cons] using ih
    · rw [if_neg h]
      have hpre : sep.isPrefixOf (c :: rest) = false := by
        rcases hb : sep.isPrefixOf (c :: rest) with _ | _
        · rfl
        · exact absurd (by simp [List.isEmpty_iff, hsep, hb]) h
      have ih := pySplitL_getLastD_not_occurs sep rest hsep
      cases hS : pySplitL sep rest with
      | nil => exact absurd hS (pySplitL_ne_nil _ _)
      | cons s ss =>
        rw [hS] at ih
        cases ss with
        | nil =>
          have hj := pySplitL_join sep rest
          rw [hS] at hj
          have hs : s = rest := by simpa [joinWith] using hj
          simp only [List.getLastD_cons, List.getLastD_nil] at ih ⊢
          subst hs
          simp [occursIn, hpre, ih]
        | cons s2 ss2 =>
          simp only [List.getLastD_cons] at ih ⊢
          exact ih
termination_by l.length
decreasing_by
  all_goals simp only [List.length_drop, List.length_cons]
  all_goals omega

theorem pySplitL_decomp (sep l : List Char) (hsep : sep ≠ [])
    (hocc : occursIn sep l = true) :
    ∃ pre, l = pre ++ sep ++ (pySplitL sep l).getLastD [] := by
  match l with
  | [] =>
    cases sep with
    | nil => exact absurd rfl hsep
    | cons x xs => exact absurd hocc (by simp [occursIn])
  | c :: rest =>
    rw [pySplitL_cons]
    by_cases h : (!sep.isEmpty && sep.isPrefixOf (c :: rest)) = true
    · rw [if_pos h]
      obtain ⟨h1, h2⟩ := by
        simpa only [Bool.and_eq_true] using h
      obtain ⟨m, hm⟩ : ∃ m, sep.length = m + 1 := by
        cases sep with
        | nil => exact absurd rfl hsep
        | cons x xs => exact ⟨xs.length, rfl⟩
      have hdec := eq_append_of_isPrefixOf h2
      rw [hm] at hdec
      simp only [List.drop_succ_cons] at hdec
      have hd : rest.drop (sep.length - 1) = rest.drop m := by
        rw [hm, Nat.add_sub_cancel]
      by_cases hocc2 : occursIn sep (rest.drop (sep.length - 1)) = true
      · obtain ⟨pre, hpre⟩ := pySplitL_decomp sep (rest.drop (sep.length - 1)) hsep hocc2
        cases hS : pySplitL sep (rest.drop (sep.length - 1)) with
        | nil => exact absurd hS (pySplitL_ne_nil _ _)
        | cons s ss =>
          rw [hS] at hpre
          refine ⟨sep ++ pre, ?_⟩
          simp only [List.getLastD_cons] at hpre ⊢
          rw [hdec, ← hd, hpre]
          simp [List.append_assoc]
      · have hs := pySplitL_no_occurs (show occursIn sep (rest.drop (sep.length - 1)) = false
          by simpa using hocc2)
        rw [hs]
        refine ⟨[], ?_⟩
        simp only [List.getLastD_cons, List.getLastD_nil, List.nil_append]
        rw [hd]
        exact hdec
    · rw [if_neg h]
      have hpre : sep.isPrefixOf (c :: rest) = false := by
        rcases hb : sep.isPrefixOf (c :: rest) with _ | _
        · rfl
        · exact absurd (by simp [List.isEmpty_iff, hsep, hb]) h
      have hocc2 : occursIn sep rest = true := by
        rw [occursIn, hpre] at hocc
        simpa using hocc
      obtain ⟨pre, hpre2⟩ := pySplitL_decomp sep rest hsep hocc2
      cases hS : pySplitL sep rest with
      | nil => exact absurd hS (pySplitL_ne_nil _ _)
      | cons s ss =>
        rw [hS] at hpre2
        cases ss with
        | nil =>
          have hno := pySplitL_getLastD_not_occurs sep rest hsep
          rw [hS] at hno
          have hj := pySplitL_join sep rest
          rw [hS] at hj
          have hs : s = rest := by simpa [joinWith] using hj
          simp only [List.getLastD_cons, List.getLastD_nil] at hno
          rw [hs] at hno
          rw [hno] at hocc2
          exact absurd hocc2 (by simp)
        | cons s2 ss2 =>
          refine ⟨c :: pre, ?_⟩
          simp only [List.getLastD_cons] at hpre2 ⊢
          simpa using hpre2
termination_by l.length
decreasing_by
  all_goals simp only [List.length_drop, List.length_cons]
  all_goals omega
theorem dropWhile_any_not (p : Char → Bool) (l : List Char) :
    (l.dropWhile p).any (fun c => !p c) = l.any (fun c => !p c) := by
  induction l with
  | nil => rfl
  | cons a l ih =>
    by_cases h : p a = true
    · simp [List.dropWhile_cons, h, ih]
    · simp [List.dropWhile_cons, h]

theorem any_reverse_eq (p : Char → Bool) (l : List Char) :
    l.reverse.any p = l.any p := by
  induction l with
  | nil => rfl
  | cons a l ih => simp [List.any_append, ih, Bool.or_comm]

theorem hasNonSpace_pyStrip (l : List Char) :
    hasNonSpace (pyStrip l) = hasNonSpace l := by
  unfold hasNonSpace pyStrip
  rw [any_reverse_eq, dropWhile_any_not, any_reverse_eq, dropWhile_any_not]

theorem pyStrip_eq_nil_iff (l : List Char) :
    pyStrip l = [] ↔ hasNonSpace l = false := by
  constructor
  · intro h
    have h2 := hasNonSpace_pyStrip l
    rw [h] at h2
    simpa [hasNonSpace] using h2.symm
  · intro h
    have hall : ∀ x ∈ l, isPySpace x = true := by
      simpa [hasNonSpace, List.any_eq_false, Bool.not_eq_true'] using h
    unfold pyStrip
    rw [List.dropWhile_eq_nil_iff.mpr hall]
    rfl

theorem parseLine_skip {st : ParseState} {l : List Char} (h : keepLine l = false) :
    parseLine st l = st := by
  have h2 : ((pyStrip l).isEmpty || "--".data.isPrefixOf (pyStrip l)) = true := by
    rcases hb : ((pyStrip l).isEmpty || "--".data.isPrefixOf (pyStrip l)) with _ | _
    · unfold keepLine at h
      rw [hb] at h
      simp at h
    · rfl
  simp [parseLine, h2]

theorem foldl_parseLine_filter (lines : List (List Char)) (st : ParseState) :
    (lines.filter keepLine).foldl parseLine st = lines.foldl parseLine st := by
  induction lines generalizing st with
  | nil => rfl
  | cons l rest ih =>
    by_cases h : keepLine l = true
    · simp [List.filter_cons, h, ih]
    · have hf : keepLine l = false := by simpa using h
      simp [List.filter_cons, hf, ih, parseLine_skip hf]

theorem parseLine_all_hasNonSpace {st : ParseState} (l : List Char)
    (h : st.statements.all hasNonSpace = true) :
    (parseLine st l).statements.all hasNonSpace = true := by
  by_cases hk : ((pyStrip l).isEmpty || "--".data.isPrefixOf (pyStrip l)) = true
  · simpa [parseLine, hk] using h
  · have hne : (pyStrip l).isEmpty = false := by
      rcases hb : (pyStrip l).isEmpty with _ | _
      · rfl
      · exact absurd (by simp [hb]) hk
    have hline : hasNonSpace l = true := by
      rcases hb : hasNonSpace l with _ | _
      · exact absurd ((pyStrip_eq_nil_iff l).mpr hb)
          (by simpa [List.isEmpty_iff] using hne)
      · rfl
    have hcur : hasNonSpace (pyStrip (st.current ++ pyStrip l ++ ['\n'])) = true := by
      rw [hasNonSpace_pyStrip]
      simp only [hasNonSpace, List.any_append, Bool.or_eq_true]
      left; right
      rw [← hasNonSpace_pyStrip] at hline
      exact hline
    unfold parseLine
    rw [if_neg hk]
    split_ifs <;> simp_all [List.all_append]

theorem parse_all_hasNonSpace (sql : List Char) :
    (parse_sql_statements sql).all hasNonSpace = true := by
  have hfold : ∀ (lines : List (List Char)) (st : ParseState),
      st.statements.all hasNonSpace = true →
      (lines.foldl parseLine st).statements.all hasNonSpace = true := by
    intro lines
    induction lines with
    | nil => exact fun st h => h
    | cons l rest ih => exact fun st h => ih _ (parseLine_all_hasNonSpace l h)
  have hbase := hfold (pySplitL ['\n'] sql) ⟨[], [], false⟩ rfl
  unfold parse_sql_statements
  have hfiltered : ∀ (L : List (List Char)), L.all hasNonSpace = true →
      (L.filter (fun s => !s.isEmpty)).all hasNonSpace = true := by
    intro L hL
    simp only [List.all_eq_true] at hL ⊢
    intro x hx
    exact hL x (List.mem_filter.mp hx).1
  dsimp only
  split
  · exact hfiltered _ hbase
  · refine hfiltered _ ?_
    rw [List.all_append]
    rw [Bool.and_eq_true]
    refine ⟨hbase, ?_⟩
    rename_i hflush
    have : hasNonSpace (pyStrip ((pySplitL ['\n'] sql).foldl parseLine ⟨[], [], false⟩).current) = true := by
      rw [hasNonSpace_pyStrip]
      rcases hb : hasNonSpace ((pySplitL ['\n'] sql).foldl parseLine ⟨[], [], false⟩).current with _ | _
      · exact absurd ((pyStrip_eq_nil_iff _).mpr hb) (by simpa [List.isEmpty_iff] using hflush)
      · rfl
    simpa using this

/-!
## Trace lemmas for the setup script
-/

theorem readPaths_append (t₁ t₂ : List Event) :
    readPaths (t₁ ++ t₂) = readPaths t₁ ++ readPaths t₂ := by
  induction t₁ with
  | nil => rfl
  | cons e t ih => cases e <;> simp [readPaths, ih]

theorem readPaths_runStatements (f : Nat → Option Exn) (i : Nat)
    (L : List (List Char)) : readPaths (runStatements f i L) = [] := by
  induction L generalizing i with
  | nil => rfl
  | cons stmt rest ih =>
    rw [runStatements]
    split
    · exact ih _
    · cases f i <;> simp [readPaths, ih]

theorem countP_exec_runStatements (f : Nat → Option Exn) (i : Nat)
    (L : List (List Char)) :
    (runStatements f i L).countP isExecEvent
      = (L.filter (fun s => !skipStmt s)).length := by
  induction L generalizing i with
  | nil => rfl
  | cons stmt rest ih =>
    rw [runStatements]
    by_cases hs : skipStmt stmt = true
    · simp [hs, List.filter_cons, ih]
    · have hs' : skipStmt stmt = false := by simpa using hs
      cases hf : f i <;>
        simp [hs', List.filter_cons, List.countP_cons, isExecEvent, ih]

theorem countP_fail_runStatements (f : Nat → Option Exn) (i : Nat)
    (L : List (List Char)) :
    (runStatements f i L).countP isFailEvent = failedExecCount f i L := by
  induction L generalizing i with
  | nil => rfl
  | cons stmt rest ih =>
    rw [runStatements, failedExecCount]
    by_cases hs : skipStmt stmt = true
    · simp [hs, ih]
    · have hs' : skipStmt stmt = false := by simpa using hs
      cases hf : f i <;>
        simp [hs', hf, List.countP_cons, isFailEvent, ih, Nat.add_comm]

theorem readPaths_execute_sql_file (p d : String) (o : FileOracle) :
    readPaths (execute_sql_file p d o).2 = [p] := by
  rcases o with ⟨content, execOut⟩
  rcases content with b | sql
  · rcases b with _ | _ <;> rfl
  · simp [execute_sql_file, readPaths_append, readPaths_runStatements, readPaths]

theorem readPaths_runVerifyQueries (q : Nat → Except Exn (List Row)) (i : Nat)
    (cs : List (String × String)) : readPaths (runVerifyQueries q i cs).2 = [] := by
  induction cs generalizing i with
  | nil => rfl
  | cons c rest ih =>
    obtain ⟨name, sqlq⟩ := c
    rw [runVerifyQueries]
    cases q i <;> simp [readPaths_append, readPaths, ih]

theorem readPaths_verify_setup (q : Nat → Except Exn (List Row)) :
    readPaths (verify_setup q).2 = [] := by
  simp [verify_setup, readPaths_append, readPaths_runVerifyQueries, readPaths]

/-!
## Occurrence lemmas
-/

theorem occursIn_nil_pat (t : List Char) : occursIn [] t = true := by
  cases t <;> simp [occursIn, List.isPrefixOf]

theorem isPrefixOf_append_of {l s : List Char} (t : List Char)
    (h : l.isPrefixOf s = true) : l.isPrefixOf (s ++ t) = true := by
  induction l generalizing s with
  | nil => simp [List.isPrefixOf]
  | cons a as ih =>
    cases s with
    | nil => simp [List.isPrefixOf] at h
    | cons b bs =>
      simp only [List.cons_append, List.isPrefixOf, Bool.and_eq_true] at h ⊢
      exact ⟨h.1, ih h.2⟩

theorem isPrefixOf_self (l : List Char) : l.isPrefixOf l = true := by
  induction l with
  | nil => rfl
  | cons a as ih => simp [List.isPrefixOf, ih]

theorem occursIn_refl (pat : List Char) : occursIn pat pat = true := by
  cases pat with
  | nil => rfl
  | cons p ps =>
    simp only [occursIn, Bool.or_eq_true]
    exact Or.inl (isPrefixOf_self _)

theorem occursIn_append_of {pat l : List Char} (t : List Char)
    (h : occursIn pat l = true) : occursIn pat (l ++ t) = true := by
  induction l with
  | nil =>
    have hp : pat = [] := by
      cases pat with
      | nil => rfl
      | cons x xs => simp [occursIn] at h
    subst hp
    exact occursIn_nil_pat _
  | cons c rest ih =>
    simp only [occursIn, Bool.or_eq_true, List.cons_append] at h ⊢
    rcases h with h | h
    · exact Or.inl (isPrefixOf_append_of t h)
    · exact Or.inr (ih h)

theorem occursIn_append_right (pre : List Char) {pat t : List Char}
    (h : occursIn pat t = true) : occursIn pat (pre ++ t) = true := by
  induction pre with
  | nil => simpa using h
  | cons c pre ih =>
    simp only [occursIn, Bool.or_eq_true, List.cons_append]
    exact Or.inr ih

theorem procCalls_append (t₁ t₂ : List Event) :
    procCalls (t₁ ++ t₂) = procCalls t₁ ++ procCalls t₂ := by
  induction t₁ with
  | nil => rfl
  | cons e t ih => cases e <;> simp [procCalls, ih]

/-!
## Claim theorems
-/

/-- C3 (code bug): the spec says every operation first opens its remote
procedure call, then fetches that call's result set, then prints; but
`discover_customer_data` executes and fetches the stray
`RESULT_SCAN(LAST_QUERY_ID())` query (discarding its rows) before it
calls `SP_DISCOVER_CUSTOMER_DATA`.  The trace below shows the
`execSql`/`fetchAll` pair preceding the `callProc`. -/
theorem claim_C3_fetch_precedes_procedure_call :
    (discover_customer_data "anna.mueller@email.de" discoverProbe).2
      = [.msg "Discovering personal data for: anna.mueller@email.de",
         .openCursor, .execSql resultScanQuery, .fetchAll, .closeCursor,
         .openCursor, .callProc "SP_DISCOVER_CUSTOMER_DATA" ["anna.mueller@email.de"],
         .fetchAll, .closeCursor,
         .msg "Data Discovery Results:", .msg "Discovery Summary:"] := rfl

/-- C4: `execute_sql_file` returns `True` whenever the file read
succeeds, no matter how many individual statements fail (every
non-skipped statement is still attempted, and each failing one yields
exactly one warning print); it returns `False` exactly when the read
itself fails (file missing or any other failure outside the
per-statement loop). -/
theorem claim_C4_execute_sql_file_error_handling :
    (∀ (p d : String) (o : FileOracle), (execute_sql_file p d o).1 = isOkE o.content)
    ∧ (∀ (p d sql : String) (f : Nat → Option Exn),
        (execute_sql_file p d ⟨.ok sql, f⟩).2.countP isExecEvent
          = ((parse_sql_statements sql.data).filter (fun s => !skipStmt s)).length)
    ∧ (∀ (p d sql : String) (f : Nat → Option Exn),
        (execute_sql_file p d ⟨.ok sql, f⟩).2.countP isFailEvent
          = failedExecCount f 0 (parse_sql_statements sql.data)) := by
  refine ⟨?_, ?_, ?_⟩
  · intro p d o
    rcases o with ⟨content, f⟩
    rcases content with b | sql
    · rcases b with _ | _ <;> rfl
    · rfl
  · intro p d sql f
    simp [execute_sql_file, List.countP_append, List.countP_cons, isExecEvent,
      countP_exec_runStatements]
  · intro p d sql f
    simp [execute_sql_file, List.countP_append, List.countP_cons, isFailEvent,
      countP_fail_runStatements]

/-- C5: the CLI exposes exactly the six commands `discover`,
`request-erasure`, `full-demo`, `dashboard`, `verify`, `interactive`;
each parses only a customer email and/or erasure reason and dispatches
to `SnowflakeGDPRDemo` methods; the interactive menu likewise only
dispatches to those methods. -/
theorem claim_C5_cli_surface :
    cliCommands.map (fun c => c.name)
      = ["discover", "request-erasure", "full-demo", "dashboard", "verify", "interactive"]
    ∧ (cliCommands.all fun c =>
        c.dispatch.all (fun m => decide (m ∈ demoMethods))
          && c.options.all (fun p => decide (p ∈ ["customer-email", "reason"]))) = true
    ∧ (∀ choices : List String,
        (interactiveRun choices).all (fun m => decide (m ∈ demoMethods)) = true) := by
  have hd : ∀ choice : String,
      (interactiveDispatch choice).all (fun m => decide (m ∈ demoMethods)) = true := by
    intro c
    unfold interactiveDispatch
    split_ifs <;> decide
  refine ⟨rfl, by decide, ?_⟩
  intro choices
  induction choices with
  | nil => rfl
  | cons c rest ih =>
    by_cases hc : c = "0"
    · simp [interactiveRun, hc]
    · simp [interactiveRun, hc, List.all_append, hd c, ih]

/-- C7: no demo-client operation ever reads a SQL file; each of the
four setup steps reads exactly its own SQL file; `verify_setup` reads
none; and a full setup run reads only the four setup files. -/
theorem claim_C7_sql_executor_only_in_setup :
    (∀ (em : String) (o : DiscoverOracle), readPaths (discover_customer_data em o).2 = [])
    ∧ (∀ (em r : String) (o : CallOracle), readPaths (submit_erasure_request em r o).2 = [])
    ∧ (∀ (rid : String) (o : CallOracle), readPaths (process_erasure_request rid o).2 = [])
    ∧ (∀ (em : String) (hrs : Nat) (o : VerifyOracle),
        readPaths (verify_deletion em hrs o).2 = [])
    ∧ (∀ (o : QueryOracle), readPaths (get_compliance_dashboard o).2 = [])
    ∧ (∀ (n : Nat) (o : QueryOracle), readPaths (get_erasure_requests n o).2 = [])
    ∧ (∀ (em : String) (o : CallOracle),
        readPaths (coordinate_third_party_deletion em o).2 = [])
    ∧ (∀ (em : String) (o : ComplianceOracle),
        readPaths (check_customer_compliance_status em o).2 = [])
    ∧ (∀ o, readPaths (setup_databases_and_schemas o).2 = ["setup/snowflake_setup.sql"])
    ∧ (∀ o, readPaths (setup_procedures_and_functions o).2 = ["setup/gdpr_procedures.sql"])
    ∧ (∀ o, readPaths (setup_security_policies o).2 = ["setup/security_policies.sql"])
    ∧ (∀ o, readPaths (setup_demo_data o).2 = ["setup/demo_data.sql"])
    ∧ (∀ q, readPaths (verify_setup q).2 = [])
    ∧ (∀ (o : FullSetupOracle),
        ((readPaths (run_full_setup o).2).all (fun p => decide (p ∈ setupSqlPaths))) = true) := by
  refine ⟨?_, ?_, ?_, ?_, ?_, ?_, ?_, ?_, ?_, ?_, ?_, ?_, ?_, ?_⟩
  · intro em o
    rcases o with ⟨s, c, f⟩
    cases s <;> cases c <;> cases f <;>
      simp [discover_customer_data, execute_query, readPaths_append, readPaths, apply_ite]
  · intro em r o
    rcases o with ⟨c⟩
    cases c with
    | error e => rfl
    | ok result =>
      simp only [submit_erasure_request]
      split <;> simp [readPaths_append, readPaths]
  · intro rid o
    rcases o with ⟨c⟩
    cases c <;>
      simp [process_erasure_request, readPaths_append, readPaths, apply_ite]
  · intro em hrs o
    rcases o with ⟨c, f⟩
    cases c <;> cases f <;>
      simp [verify_deletion, readPaths_append, readPaths, apply_ite]
  · intro o
    rcases o with ⟨q⟩
    cases q with
    | error e => simp [get_compliance_dashboard, execute_query, readPaths_append, readPaths]
    | ok rows =>
      cases rows <;>
        simp [get_compliance_dashboard, execute_query, readPaths_append, readPaths]
  · intro n o
    rcases o with ⟨q⟩
    cases q <;>
      simp [get_erasure_requests, execute_query, readPaths_append, readPaths, apply_ite]
  · intro em o
    rcases o with ⟨c⟩
    cases c <;>
      simp [coordinate_third_party_deletion, readPaths_append, readPaths, apply_ite]
  · intro em o
    rcases o with ⟨q, j⟩
    cases q with
    | error e =>
      simp [check_customer_compliance_status, execute_query, readPaths_append, readPaths]
    | ok rows =>
      cases rows <;> cases j <;>
        simp [check_customer_compliance_status, execute_query, readPaths_append, readPaths]
  · intro o
    simpa [setup_databases_and_schemas] using readPaths_execute_sql_file _ _ o
  · intro o
    simpa [setup_procedures_and_functions] using readPaths_execute_sql_file _ _ o
  · intro o
    simpa [setup_security_policies] using readPaths_execute_sql_file _ _ o
  · intro o
    simpa [setup_demo_data] using readPaths_execute_sql_file _ _ o
  · exact readPaths_verify_setup
  · intro o
    unfold run_full_setup
    dsimp only
    split_ifs <;>
      simp [readPaths_append, readPaths_execute_sql_file, readPaths_verify_setup,
        readPaths_runVerifyQueries, setup_databases_and_schemas,
        setup_procedures_and_functions, setup_security_policies, setup_demo_data,
        readPaths, setupSqlPaths]

set_option maxRecDepth 4096 in
/-- C2 counterexample: the claim says the client names no remote object
outside the seven listed ones, but `get_erasure_requests` issues a
`SELECT ... FROM ERASURE_REQUESTS` — the `ERASURE_REQUESTS` table is a
remote object the client depends on and it is not in the listed set. -/
theorem counterexample_C2_erasure_requests_table :
    ¬ ("ERASURE_REQUESTS" ∈ specRemoteObjects)
    ∧ containsS (erasureRequestsQuery 10) "ERASURE_REQUESTS" = true
    ∧ Event.execSql (erasureRequestsQuery 10) ∈ (get_erasure_requests 10 ⟨.ok []⟩).2 := by
  refine ⟨by decide, by decide, ?_⟩
  simp [get_erasure_requests, execute_query]

/-- C2 (amended): the remote objects the demo client names are exactly
the seven objects of the spec plus the `ERASURE_REQUESTS` table, which
`get_erasure_requests` reads directly (built-in SQL engine functions
such as `RESULT_SCAN`, `LAST_QUERY_ID`, `DATEDIFF`, `CURRENT_TIMESTAMP`
are not warehouse objects); each named object appears in the
corresponding query text, and every procedure any operation ever calls
is in that set. -/
theorem claim_C2_remote_interface_surface :
    (∀ x, x ∈ clientRemoteObjects ↔ (x ∈ specRemoteObjects ∨ x = "ERASURE_REQUESTS"))
    ∧ containsS dashboardQuery "VW_GDPR_COMPLIANCE_DASHBOARD" = true
    ∧ containsS complianceStatusQuery "FN_CHECK_GDPR_COMPLIANCE_STATUS" = true
    ∧ containsS discoverCallQueryText "SP_DISCOVER_CUSTOMER_DATA" = true
    ∧ containsS resultScanQuery "RESULT_SCAN" = true
    ∧ (∀ n : Nat, containsS (erasureRequestsQuery n) "ERASURE_REQUESTS" = true)
    ∧ (∀ (em : String) (o : DiscoverOracle),
        (procCalls (discover_customer_data em o).2).all
          (fun x => decide (x ∈ clientRemoteObjects)) = true)
    ∧ (∀ (em r : String) (o : CallOracle),
        (procCalls (submit_erasure_request em r o).2).all
          (fun x => decide (x ∈ clientRemoteObjects)) = true)
    ∧ (∀ (rid : String) (o : CallOracle),
        (procCalls (process_erasure_request rid o).2).all
          (fun x => decide (x ∈ clientRemoteObjects)) = true)
    ∧ (∀ (em : String) (hrs : Nat) (o : VerifyOracle),
        (procCalls (verify_deletion em hrs o).2).all
          (fun x => decide (x ∈ clientRemoteObjects)) = true)
    ∧ (∀ (em : String) (o : CallOracle),
        (procCalls (coordinate_third_party_deletion em o).2).all
          (fun x => decide (x ∈ clientRemoteObjects)) = true)
    ∧ (∀ (o : QueryOracle), procCalls (get_compliance_dashboard o).2 = [])
    ∧ (∀ (n : Nat) (o : QueryOracle), procCalls (get_erasure_requests n o).2 = [])
    ∧ (∀ (em : String) (o : ComplianceOracle),
        procCalls (check_customer_compliance_status em o).2 = []) := by
  refine ⟨?_, by decide, by decide, by decide, by decide, ?_, ?_, ?_, ?_, ?_, ?_, ?_, ?_, ?_⟩
  · intro x
    simp [clientRemoteObjects, specRemoteObjects]
    tauto
  · intro n
    unfold erasureRequestsQuery containsS
    rw [String.data_append, String.data_append]
    exact occursIn_append_of _ (occursIn_append_of _
      (by set_option maxRecDepth 4096 in decide))
  · intro em o
    rcases o with ⟨s, c, f⟩
    cases s <;> cases c <;> cases f <;>
      simp only [discover_customer_data, execute_query] <;> (try split) <;>
      simp [procCalls_append, procCalls, clientRemoteObjects]
  · intro em r o
    rcases o with ⟨c⟩
    cases c <;>
      simp only [submit_erasure_request] <;> (try split) <;>
      simp [procCalls_append, procCalls, clientRemoteObjects]
  · intro rid o
    rcases o with ⟨c⟩
    cases c <;>
      simp only [process_erasure_request] <;> (try split) <;>
      simp [procCalls_append, procCalls, clientRemoteObjects]
  · intro em hrs o
    rcases o with ⟨c, f⟩
    cases c <;> cases f <;>
      simp only [verify_deletion] <;> (try split) <;>
      simp [procCalls_append, procCalls, clientRemoteObjects]
  · intro em o
    rcases o with ⟨c⟩
    cases c <;>
      simp only [coordinate_third_party_deletion] <;> (try split) <;>
      simp [procCalls_append, procCalls, clientRemoteObjects]
  · intro o
    rcases o with ⟨q⟩
    cases q with
    | error e => simp [get_compliance_dashboard, execute_query, procCalls_append, procCalls]
    | ok rows =>
      cases rows <;>
        simp [get_compliance_dashboard, execute_query, procCalls_append, procCalls]
  · intro n o
    rcases o with ⟨q⟩
    cases q <;>
      simp only [get_erasure_requests, execute_query] <;> (try split) <;>
      simp [procCalls_append, procCalls]
  · intro em o
    rcases o with ⟨q, j⟩
    cases q with
    | error e =>
      simp [check_customer_compliance_status, execute_query, procCalls_append, procCalls]
    | ok rows =>
      cases rows <;> cases j <;>
        simp [check_customer_compliance_status, execute_query, procCalls_append, procCalls]

set_option maxRecDepth 4096 in
/-- C10 counterexample: the claim calls the `.env` role entry fixed,
but it is the f-string substitution of the provided `--role` option:
two runs differing only in role produce different `.env` contents. -/
theorem counterexample_C10_role_entry_not_fixed :
    envFileContent "acct" "demo_user" "pw123" "ACCOUNTADMIN"
        ≠ envFileContent "acct" "demo_user" "pw123" "SYSADMIN"
    ∧ containsS (envFileContent "acct" "demo_user" "pw123" "ACCOUNTADMIN")
        "SNOWFLAKE_ROLE=ACCOUNTADMIN" = true
    ∧ (setupMain "acct" "demo_user" "pw123" "ACCOUNTADMIN" okMainOracle).1
        = some (envFileContent "acct" "demo_user" "pw123" "ACCOUNTADMIN") := by
  refine ⟨by decide, by decide, ?_⟩
  rfl

/-- C10 (amended): the setup `main` writes a `.env` file exactly when
the four setup files are present, the credentials are complete,
`connect` succeeds and `run_full_setup` succeeds; its contents are the
f-string carrying account, user and password verbatim (password in
plain text), fixed warehouse, database and schema entries, and a role
entry equal to the provided role. -/
theorem claim_C10_env_file_contents :
    (∀ (a u p r : String) (o : MainOracle),
        (setupMain a u p r o).1
          = if (o.filesPresent
                  && !(decide (a = "") || decide (u = "") || decide (p = ""))
                  && o.connectOk && (run_full_setup o.setup).1) = true
            then some (envFileContent a u p r) else none)
    ∧ (∀ a u p r, containsS (envFileContent a u p r)
        ("SNOWFLAKE_ACCOUNT=" ++ a ++ "\n") = true)
    ∧ (∀ a u p r, containsS (envFileContent a u p r)
        ("SNOWFLAKE_USER=" ++ u ++ "\n") = true)
    ∧ (∀ a u p r, containsS (envFileContent a u p r)
        ("SNOWFLAKE_PASSWORD=" ++ p ++ "\n") = true)
    ∧ (∀ a u p r, containsS (envFileContent a u p r)
        ("SNOWFLAKE_ROLE=" ++ r ++ "\n") = true) := by
  refine ⟨?_, ?_, ?_, ?_, ?_⟩
  · intro a u p r o
    rcases o with ⟨fp, co, st⟩
    by_cases ha : a = "" <;> by_cases hu : u = "" <;> by_cases hp : p = "" <;>
      cases fp <;> cases co <;>
        simp [setupMain, ha, hu, hp] <;> split <;> simp_all
  · intro a u p r
    unfold containsS envFileContent
    simp only [String.data_append, List.append_assoc]
    apply occursIn_append_right
    have hsh : "SNOWFLAKE_ACCOUNT=".data ++ (a.data ++ ("\n".data
          ++ ("SNOWFLAKE_USER=".data ++ (u.data ++ ("\n".data
          ++ ("SNOWFLAKE_PASSWORD=".data ++ (p.data ++ ("\n".data
          ++ ("SNOWFLAKE_WAREHOUSE=GDPR_PROCESSING_WH\n".data
          ++ ("SNOWFLAKE_DATABASE=COMPLIANCE_DB\n".data
          ++ ("SNOWFLAKE_SCHEMA=REQUESTS\n".data
          ++ ("SNOWFLAKE_ROLE=".data ++ (r.data ++ "\n".data)))))))))))))
        = ("SNOWFLAKE_ACCOUNT=".data ++ (a.data ++ "\n".data))
          ++ ("SNOWFLAKE_USER=".data ++ (u.data ++ ("\n".data
          ++ ("SNOWFLAKE_PASSWORD=".data ++ (p.data ++ ("\n".data
          ++ ("SNOWFLAKE_WAREHOUSE=GDPR_PROCESSING_WH\n".data
          ++ ("SNOWFLAKE_DATABASE=COMPLIANCE_DB\n".data
          ++ ("SNOWFLAKE_SCHEMA=REQUESTS\n".data
          ++ ("SNOWFLAKE_ROLE=".data ++ (r.data ++ "\n".data))))))))))) := by
      simp [List.append_assoc]
    rw [hsh]
    exact occursIn_append_of _ (occursIn_refl _)
  · intro a u p r
    unfold containsS envFileContent
    simp only [String.data_append, List.append_assoc]
    apply occursIn_append_right
    apply occursIn_append_right
    apply occursIn_append_right
    apply occursIn_append_right
    have hsh : "SNOWFLAKE_USER=".data ++ (u.data ++ ("\n".data
          ++ ("SNOWFLAKE_PASSWORD=".data ++ (p.data ++ ("\n".data
          ++ ("SNOWFLAKE_WAREHOUSE=GDPR_PROCESSING_WH\n".data
          ++ ("SNOWFLAKE_DATABASE=COMPLIANCE_DB\n".data
          ++ ("SNOWFLAKE_SCHEMA=REQUESTS\n".data
          ++ ("SNOWFLAKE_ROLE=".data ++ (r.data ++ "\n".data))))))))))
        = ("SNOWFLAKE_USER=".data ++ (u.data ++ "\n".data))
          ++ ("SNOWFLAKE_PASSWORD=".data ++ (p.data ++ ("\n".data
          ++ ("SNOWFLAKE_WAREHOUSE=GDPR_PROCESSING_WH\n".data
          ++ ("SNOWFLAKE_DATABASE=COMPLIANCE_DB\n".data
          ++ ("SNOWFLAKE_SCHEMA=REQUESTS\n".data
          ++ ("SNOWFLAKE_ROLE=".data ++ (r.data ++ "\n".data)))))))) := by
      simp [List.append_assoc]
    rw [hsh]
    exact occursIn_append_of _ (occursIn_refl _)
  · intro a u p r
    unfold containsS envFileContent
    simp only [String.data_append, List.append_assoc]
    apply occursIn_append_right
    apply occursIn_append_right
    apply occursIn_append_right
    apply occursIn_append_right
    apply occursIn_append_right
    apply occursIn_append_right
    apply occursIn_append_right
    have hsh : "SNOWFLAKE_PASSWORD=".data ++ (p.data ++ ("\n".data
          ++ ("SNOWFLAKE_WAREHOUSE=GDPR_PROCESSING_WH\n".data
          ++ ("SNOWFLAKE_DATABASE=COMPLIANCE_DB\n".data
          ++ ("SNOWFLAKE_SCHEMA=REQUESTS\n".data
          ++ ("SNOWFLAKE_ROLE=".data ++ (r.data ++ "\n".data)))))))
        = ("SNOWFLAKE_PASSWORD=".data ++ (p.data ++ "\n".data))
          ++ ("SNOWFLAKE_WAREHOUSE=GDPR_PROCESSING_WH\n".data
          ++ ("SNOWFLAKE_DATABASE=COMPLIANCE_DB\n".data
          ++ ("SNOWFLAKE_SCHEMA=REQUESTS\n".data
          ++ ("SNOWFLAKE_ROLE=".data ++ (r.data ++ "\n".data))))) := by
      simp [List.append_assoc]
    rw [hsh]
    exact occursIn_append_of _ (occursIn_refl _)
  · intro a u p r
    unfold containsS envFileContent
    simp only [String.data_append, List.append_assoc]
    apply occursIn_append_right
    apply occursIn_append_right
    apply occursIn_append_right
    apply occursIn_append_right
    apply occursIn_append_right
    apply occursIn_append_right
    apply occursIn_append_right
    apply occursIn_append_right
    apply occursIn_append_right
    apply occursIn_append_right
    apply occursIn_append_right
    apply occursIn_append_right
    apply occursIn_append_right
    exact occursIn_refl _

/-- C1 counterexample: on a failing query `get_erasure_requests`
catches the exception and logs it (three log lines: two in
`execute_query`, one in its own handler) but prints no failure
message, so the caught failure is not converted to a printed failure
message as the claim states for every operation. -/
theorem counterexample_C1_get_erasure_requests_only_logs :
    (get_erasure_requests 10 ⟨.error "connection error"⟩).2.countP isFailEvent = 0
    ∧ (get_erasure_requests 10 ⟨.error "connection error"⟩).2.countP isLogEvent = 3 := by
  exact ⟨rfl, rfl⟩

/-- C1 (amended): every public demo operation catches driver
exceptions, logs them, and returns its default value instead of
propagating; every operation except `get_erasure_requests` also prints
exactly one failure message, while `get_erasure_requests` only logs;
success paths print no failure message. -/
theorem claim_C1_failures_caught_logged_printed :
    (∀ (em ex : String) (c : Except Exn Unit) (f : Except Exn (List Row)),
        (discover_customer_data em ⟨.error ex, c, f⟩).1 = []
        ∧ (discover_customer_data em ⟨.error ex, c, f⟩).2.countP isFailEvent = 1
        ∧ (discover_customer_data em ⟨.error ex, c, f⟩).2.countP isLogEvent = 3)
    ∧ (∀ (em ex : String) (rows : List Row) (f : Except Exn (List Row)),
        (discover_customer_data em ⟨.ok rows, .error ex, f⟩).1 = []
        ∧ (discover_customer_data em ⟨.ok rows, .error ex, f⟩).2.countP isFailEvent = 1
        ∧ (discover_customer_data em ⟨.ok rows, .error ex, f⟩).2.countP isLogEvent = 1)
    ∧ (∀ (em ex : String) (rows : List Row),
        (discover_customer_data em ⟨.ok rows, .ok (), .error ex⟩).1 = []
        ∧ (discover_customer_data em ⟨.ok rows, .ok (), .error ex⟩).2.countP isFailEvent = 1
        ∧ (discover_customer_data em ⟨.ok rows, .ok (), .error ex⟩).2.countP isLogEvent = 1)
    ∧ (∀ (em : String) (rows res : List Row),
        (discover_customer_data em ⟨.ok rows, .ok (), .ok res⟩).2.countP isFailEvent = 0
        ∧ (discover_customer_data em ⟨.ok rows, .ok (), .ok res⟩).2.countP isLogEvent = 0)
    ∧ (∀ (em r ex : String),
        (submit_erasure_request em r ⟨.error ex⟩).1 = none
        ∧ (submit_erasure_request em r ⟨.error ex⟩).2.countP isFailEvent = 1
        ∧ (submit_erasure_request em r ⟨.error ex⟩).2.countP isLogEvent = 1)
    ∧ (∀ (em r : String) (res : List String),
        (submit_erasure_request em r ⟨.ok res⟩).2.countP isFailEvent = 0
        ∧ (submit_erasure_request em r ⟨.ok res⟩).2.countP isLogEvent = 0)
    ∧ (∀ (rid ex : String),
        (process_erasure_request rid ⟨.error ex⟩).1 = false
        ∧ (process_erasure_request rid ⟨.error ex⟩).2.countP isFailEvent = 1
        ∧ (process_erasure_request rid ⟨.error ex⟩).2.countP isLogEvent = 1)
    ∧ (∀ (rid : String) (res : List String),
        (process_erasure_request rid ⟨.ok res⟩).2.countP isFailEvent = 0
        ∧ (process_erasure_request rid ⟨.ok res⟩).2.countP isLogEvent = 0)
    ∧ (∀ (em ex : String) (hrs : Nat) (f : Except Exn (List Row)),
        (verify_deletion em hrs ⟨.error ex, f⟩).1 = []
        ∧ (verify_deletion em hrs ⟨.error ex, f⟩).2.countP isFailEvent = 1
        ∧ (verify_deletion em hrs ⟨.error ex, f⟩).2.countP isLogEvent = 1)
    ∧ (∀ (em ex : String) (hrs : Nat),
        (verify_deletion em hrs ⟨.ok (), .error ex⟩).1 = []
        ∧ (verify_deletion em hrs ⟨.ok (), .error ex⟩).2.countP isFailEvent = 1
        ∧ (verify_deletion em hrs ⟨.ok (), .error ex⟩).2.countP isLogEvent = 1)
    ∧ (∀ (em : String) (hrs : Nat) (res : List Row),
        (verify_deletion em hrs ⟨.ok (), .ok res⟩).2.countP isFailEvent = 0
        ∧ (verify_deletion em hrs ⟨.ok (), .ok res⟩).2.countP isLogEvent = 0)
    ∧ (∀ ex : String,
        (get_compliance_dashboard ⟨.error ex⟩).1 = []
        ∧ (get_compliance_dashboard ⟨.error ex⟩).2.countP isFailEvent = 1
        ∧ (get_compliance_dashboard ⟨.error ex⟩).2.countP isLogEvent = 3)
    ∧ (∀ rows : List Row,
        (get_compliance_dashboard ⟨.ok rows⟩).2.countP isFailEvent = 0
        ∧ (get_compliance_dashboard ⟨.ok rows⟩).2.countP isLogEvent = 0)
    ∧ (∀ (n : Nat) (ex : String),
        (get_erasure_requests n ⟨.error ex⟩).1 = []
        ∧ (get_erasure_requests n ⟨.error ex⟩).2.countP isFailEvent = 0
        ∧ (get_erasure_requests n ⟨.error ex⟩).2.countP isLogEvent = 3)
    ∧ (∀ (n : Nat) (rows : List Row),
        (get_erasure_requests n ⟨.ok rows⟩).2.countP isFailEvent = 0
        ∧ (get_erasure_requests n ⟨.ok rows⟩).2.countP isLogEvent = 0)
    ∧ (∀ (em ex : String),
        (coordinate_third_party_deletion em ⟨.error ex⟩).1 = false
        ∧ (coordinate_third_party_deletion em ⟨.error ex⟩).2.countP isFailEvent = 1
        ∧ (coordinate_third_party_deletion em ⟨.error ex⟩).2.countP isLogEvent = 1)
    ∧ (∀ (em : String) (res : List String),
        (coordinate_third_party_deletion em ⟨.ok res⟩).2.countP isFailEvent = 0
        ∧ (coordinate_third_party_deletion em ⟨.ok res⟩).2.countP isLogEvent = 0)
    ∧ (∀ (em ex : String) (j : Except Exn (List (String × String))),
        (check_customer_compliance_status em ⟨.error ex, j⟩).1 = []
        ∧ (check_customer_compliance_status em ⟨.error ex, j⟩).2.countP isFailEvent = 1
        ∧ (check_customer_compliance_status em ⟨.error ex, j⟩).2.countP isLogEvent = 3)
    ∧ (∀ (em ex : String) (row : Row) (rows : List Row),
        (check_customer_compliance_status em ⟨.ok (row :: rows), .error ex⟩).1 = []
        ∧ (check_customer_compliance_status em
            ⟨.ok (row :: rows), .error ex⟩).2.countP isFailEvent = 1
        ∧ (check_customer_compliance_status em
            ⟨.ok (row :: rows), .error ex⟩).2.countP isLogEvent = 1)
    ∧ (∀ (em : String) (j : Except Exn (List (String × String))),
        (check_customer_compliance_status em ⟨.ok [], j⟩).2.countP isFailEvent = 0
        ∧ (check_customer_compliance_status em ⟨.ok [], j⟩).2.countP isLogEvent = 0)
    ∧ (∀ (em : String) (row : Row) (rows : List Row) (d : List (String × String)),
        (check_customer_compliance_status em
            ⟨.ok (row :: rows), .ok d⟩).2.countP isFailEvent = 0
        ∧ (check_customer_compliance_status em
            ⟨.ok (row :: rows), .ok d⟩).2.countP isLogEvent = 0) := by
  refine ⟨?_, ?_, ?_, ?_, ?_, ?_, ?_, ?_, ?_, ?_, ?_, ?_, ?_, ?_, ?_, ?_, ?_, ?_, ?_, ?_, ?_⟩
  · exact fun em ex c f => ⟨rfl, rfl, rfl⟩
  · exact fun em ex rows f => ⟨rfl, rfl, rfl⟩
  · exact fun em ex rows => ⟨rfl, rfl, rfl⟩
  · intro em rows res
    cases res <;> exact ⟨rfl, rfl⟩
  · exact fun em r ex => ⟨rfl, rfl, rfl⟩
  · intro em r res
    constructor <;> (simp only [submit_erasure_request]; split <;> rfl)
  · exact fun rid ex => ⟨rfl, rfl, rfl⟩
  · intro rid res
    constructor <;> (simp only [process_erasure_request]; split <;> rfl)
  · exact fun em ex hrs f => ⟨rfl, rfl, rfl⟩
  · exact fun em ex hrs => ⟨rfl, rfl, rfl⟩
  · intro em hrs res
    cases res <;> exact ⟨rfl, rfl⟩
  · exact fun ex => ⟨rfl, rfl, rfl⟩
  · intro rows
    cases rows <;> exact ⟨rfl, rfl⟩
  · exact fun n ex => ⟨rfl, rfl, rfl⟩
  · intro n rows
    cases rows <;> exact ⟨rfl, rfl⟩
  · exact fun em ex => ⟨rfl, rfl, rfl⟩
  · intro em res
    constructor <;> (simp only [coordinate_third_party_deletion]; split <;> rfl)
  · exact fun em ex j => ⟨rfl, rfl, rfl⟩
  · exact fun em ex row rows => ⟨rfl, rfl, rfl⟩
  · exact fun em j => ⟨rfl, rfl⟩
  · exact fun em row rows d => ⟨rfl, rfl⟩

/-- C6 counterexample: when the `SP_VERIFY_DELETION` call raises, the
`except`-handler of `verify_deletion` returns without closing the
cursor it opened (one `openCursor`, no `closeCursor`); the next
operation then opens a second cursor while the first is still open. -/
theorem counterexample_C6_cursor_left_open :
    (verify_deletion "jean.dupont@email.fr" 24
        ⟨.error "statement timeout", .ok []⟩).2.countP isOpenEvent = 1
    ∧ (verify_deletion "jean.dupont@email.fr" 24
        ⟨.error "statement timeout", .ok []⟩).2.countP isCloseEvent = 0
    ∧ singleCursor ((verify_deletion "jean.dupont@email.fr" 24
          ⟨.error "statement timeout", .ok []⟩).2
        ++ (get_compliance_dashboard ⟨.ok [[("PENDING_REQUESTS", "0")]]⟩).2) = false := by
  exact ⟨rfl, rfl, rfl⟩

/-- C6 (amended): within every single operation at most one cursor is
ever open at a time, and an operation's cursors are all closed again
exactly when its database interactions succeed; when a call raises, the
handler returns with the cursor left open. -/
theorem claim_C6_single_cursor_discipline :
    (∀ (em : String) (o : DiscoverOracle),
        singleCursor (discover_customer_data em o).2 = true
        ∧ cursorsClosed (discover_customer_data em o).2
            = (isOkE o.resultScanRes && isOkE o.callRes && isOkE o.fetchRes))
    ∧ (∀ (em r : String) (o : CallOracle),
        singleCursor (submit_erasure_request em r o).2 = true
        ∧ cursorsClosed (submit_erasure_request em r o).2 = isOkE o.callRes)
    ∧ (∀ (rid : String) (o : CallOracle),
        singleCursor (process_erasure_request rid o).2 = true
        ∧ cursorsClosed (process_erasure_request rid o).2 = isOkE o.callRes)
    ∧ (∀ (em : String) (hrs : Nat) (o : VerifyOracle),
        singleCursor (verify_deletion em hrs o).2 = true
        ∧ cursorsClosed (verify_deletion em hrs o).2
            = (isOkE o.callRes && isOkE o.fetchRes))
    ∧ (∀ (o : QueryOracle),
        singleCursor (get_compliance_dashboard o).2 = true
        ∧ cursorsClosed (get_compliance_dashboard o).2 = isOkE o.queryRes)
    ∧ (∀ (n : Nat) (o : QueryOracle),
        singleCursor (get_erasure_requests n o).2 = true
        ∧ cursorsClosed (get_erasure_requests n o).2 = isOkE o.queryRes)
    ∧ (∀ (em : String) (o : CallOracle),
        singleCursor (coordinate_third_party_deletion em o).2 = true
        ∧ cursorsClosed (coordinate_third_party_deletion em o).2 = isOkE o.callRes)
    ∧ (∀ (em : String) (o : ComplianceOracle),
        singleCursor (check_customer_compliance_status em o).2 = true
        ∧ cursorsClosed (check_customer_compliance_status em o).2 = isOkE o.queryRes) := by
  refine ⟨?_, ?_, ?_, ?_, ?_, ?_, ?_, ?_⟩
  · intro em o
    rcases o with ⟨s, c, f⟩
    cases s with
    | error e => exact ⟨rfl, rfl⟩
    | ok rows =>
      cases c with
      | error e => exact ⟨rfl, rfl⟩
      | ok u =>
        cases f with
        | error e => exact ⟨rfl, rfl⟩
        | ok res => cases res <;> exact ⟨rfl, rfl⟩
  · intro em r o
    rcases o with ⟨c⟩
    cases c with
    | error e => exact ⟨rfl, rfl⟩
    | ok res =>
      constructor <;> (simp only [submit_erasure_request]; split <;> rfl)
  · intro rid o
    rcases o with ⟨c⟩
    cases c with
    | error e => exact ⟨rfl, rfl⟩
    | ok res =>
      constructor <;> (simp only [process_erasure_request]; split <;> rfl)
  · intro em hrs o
    rcases o with ⟨c, f⟩
    cases c with
    | error e => exact ⟨rfl, rfl⟩
    | ok u =>
      cases f with
      | error e => exact ⟨rfl, rfl⟩
      | ok res => cases res <;> exact ⟨rfl, rfl⟩
  · intro o
    rcases o with ⟨q⟩
    cases q with
    | error e => exact ⟨rfl, rfl⟩
    | ok rows => cases rows <;> exact ⟨rfl, rfl⟩
  · intro n o
    rcases o with ⟨q⟩
    cases q with
    | error e => exact ⟨rfl, rfl⟩
    | ok rows => cases rows <;> exact ⟨rfl, rfl⟩
  · intro em o
    rcases o with ⟨c⟩
    cases c with
    | error e => exact ⟨rfl, rfl⟩
    | ok res =>
      constructor <;> (simp only [coordinate_third_party_deletion]; split <;> rfl)
  · intro em o
    rcases o with ⟨q, j⟩
    cases q with
    | error e => exact ⟨rfl, rfl⟩
    | ok rows =>
      cases rows with
      | nil => exact ⟨rfl, rfl⟩
      | cons row rest => cases j <;> exact ⟨rfl, rfl⟩

/-- C8: for a call result `res`, `submit_erasure_request` returns a
non-`None` value exactly when the result message (`str(result[0])`, or
`"Unknown result"` for an empty result) contains `"SUCCESS"`; in that
case, when `"ID: "` occurs in the message the returned request id is
the text after the last occurrence of `"ID: "` (the message decomposes
as `pre ++ "ID: " ++ rid` with no further `"ID: "` inside `rid`), and
otherwise the literal `"Unknown"` is returned; a driver exception
yields `None`. -/
theorem claim_C8_submit_result_semantics (email reason : String) (res : List String) :
    ((submit_erasure_request email reason ⟨.ok res⟩).1).isSome
        = containsS (resultMessage res) "SUCCESS"
    ∧ (containsS (resultMessage res) "SUCCESS" = true →
        containsS (resultMessage res) "ID: " = false →
        (submit_erasure_request email reason ⟨.ok res⟩).1 = some "Unknown")
    ∧ (containsS (resultMessage res) "SUCCESS" = true →
        containsS (resultMessage res) "ID: " = true →
        ∃ rid pre, (submit_erasure_request email reason ⟨.ok res⟩).1 = some rid
          ∧ (resultMessage res).data = pre ++ "ID: ".data ++ rid.data
          ∧ occursIn "ID: ".data rid.data = false)
    ∧ (∀ ex : String, (submit_erasure_request email reason ⟨.error ex⟩).1 = none) := by
  refine ⟨?_, ?_, ?_, fun ex => rfl⟩
  · by_cases hS : containsS (resultMessage res) "SUCCESS" = true
    · simp [submit_erasure_request, hS]
    · have hS2 : containsS (resultMessage res) "SUCCESS" = false := by simpa using hS
      simp [submit_erasure_request, hS2]
  · intro hS hID
    simp [submit_erasure_request, hS, hID]
  · intro hS hID
    have hocc : occursIn "ID: ".data (resultMessage res).data = true := hID
    obtain ⟨pre, hpre⟩ := pySplitL_decomp "ID: ".data (resultMessage res).data
      (by decide) hocc
    refine ⟨String.mk ((pySplitL "ID: ".data (resultMessage res).data).getLastD []),
      pre, ?_, ?_, ?_⟩
    · simp [submit_erasure_request, hS, hID]
    · exact hpre
    · exact pySplitL_getLastD_not_occurs "ID: ".data (resultMessage res).data (by decide)

/-- Witness for C8 at a concrete successful call result carrying a
request id. -/
theorem claim_C8_submit_result_semantics_witness :
    ∃ rid pre,
      (submit_erasure_request "anna.mueller@email.de" "WITHDRAWN_CONSENT"
          ⟨.ok ["SUCCESS: Erasure request submitted with ID: ERQ-001"]⟩).1 = some rid
      ∧ (resultMessage ["SUCCESS: Erasure request submitted with ID: ERQ-001"]).data
          = pre ++ "ID: ".data ++ rid.data
      ∧ occursIn "ID: ".data rid.data = false :=
  (claim_C8_submit_result_semantics "anna.mueller@email.de" "WITHDRAWN_CONSENT"
      ["SUCCESS: Erasure request submitted with ID: ERQ-001"]).2.2.1
    (by decide) (by decide)

/-- C9 counterexample: on the input `"SELECT 1"` — a single line that
does not end with `';'` and contains no `"$$"` — the parser still
returns the trailing text as a statement, so outside a `$$` block a
statement does not end exactly at a line ending with `';'`. -/
theorem counterexample_C9_statement_without_semicolon :
    parse_sql_statements "SELECT 1".data = ["SELECT 1".data]
    ∧ pyEndsWith "SELECT 1".data ";".data = false
    ∧ occursIn "$$".data "SELECT 1".data = false := by
  exact ⟨by decide, by decide, by decide⟩

/-- C9 (amended): every returned statement contains a non-whitespace
character (it is non-empty after stripping); blank lines and lines
whose stripped form starts with `--` contribute nothing (the parse is
invariant under removing them); outside a `$$` block a kept line
completes a statement exactly when it ends with `';'` and does not
contain `"$$"` — any text remaining at end of input is additionally
flushed as a final statement — and a kept line containing `"$$"`
toggles the block state, so a block opened by such a line is closed
exactly at the next kept line containing `"$$"`, emitting the block as
one statement. -/
theorem claim_C9_parser_properties :
    (∀ sql : List Char, (parse_sql_statements sql).all hasNonSpace = true)
    ∧ (∀ (lines : List (List Char)) (st : ParseState),
        (lines.filter keepLine).foldl parseLine st = lines.foldl parseLine st)
    ∧ (∀ (st : ParseState) (l : List Char),
        (parseLine st l).statements.length
          = st.statements.length
            + (if keepLine l = false then 0
               else if occursIn "$$".data (pyStrip l) = true then
                 (if st.inProcedure then 1 else 0)
               else if st.inProcedure = false ∧ pyEndsWith (pyStrip l) ";".data = true
                 then 1 else 0))
    ∧ (∀ (st : ParseState) (l : List Char),
        (parseLine st l).inProcedure
          = (if keepLine l = true ∧ occursIn "$$".data (pyStrip l) = true
             then !st.inProcedure else st.inProcedure)) := by
  refine ⟨parse_all_hasNonSpace, foldl_parseLine_filter, ?_, ?_⟩
  · intro st l
    by_cases hskip : ((pyStrip l).isEmpty || "--".data.isPrefixOf (pyStrip l)) = true
    · have hk : keepLine l = false := by simp [keepLine, hskip]
      rw [parseLine_skip hk]
      simp [hk]
    · have hskip2 : ((pyStrip l).isEmpty || "--".data.isPrefixOf (pyStrip l)) = false := by
        rcases hb : ((pyStrip l).isEmpty || "--".data.isPrefixOf (pyStrip l)) with _ | _
        · rfl
        · exact absurd hb hskip
      have hk : keepLine l = true := by simp [keepLine, hskip2]
      unfold parseLine
      rw [if_neg (by simp [hskip2])]
      by_cases hd : occursIn "$$".data (pyStrip l) = true
      · rw [if_pos hd]
        by_cases hin : st.inProcedure = true
        · simp [hin, hk, hd, List.length_append]
        · have hin2 : st.inProcedure = false := by simpa using hin
          simp [hin2, hk, hd]
      · have hd2 : occursIn "$$".data (pyStrip l) = false := by simpa using hd
        rw [if_neg (by simp [hd2])]
        by_cases hin : st.inProcedure = true
        · simp [hin, hk, hd2]
        · have hin2 : st.inProcedure = false := by simpa using hin
          by_cases he : pyEndsWith (pyStrip l) ";".data = true
          · simp [hin2, he, hk, hd2, List.length_append]
          · have he2 : pyEndsWith (pyStrip l) ";".data = false := by simpa using he
            simp [hin2, he2, hk, hd2]
  · intro st l
    by_cases hskip : ((pyStrip l).isEmpty || "--".data.isPrefixOf (pyStrip l)) = true
    · have hk : keepLine l = false := by simp [keepLine, hskip]
      rw [parseLine_skip hk]
      simp [hk]
    · have hskip2 : ((pyStrip l).isEmpty || "--".data.isPrefixOf (pyStrip l)) = false := by
        rcases hb : ((pyStrip l).isEmpty || "--".data.isPrefixOf (pyStrip l)) with _ | _
        · rfl
        · exact absurd hb hskip
      have hk : keepLine l = true := by simp [keepLine, hskip2]
      unfold parseLine
      rw [if_neg (by simp [hskip2])]
      by_cases hd : occursIn "$$".data (pyStrip l) = true
      · rw [if_pos hd]
        by_cases hin : st.inProcedure = true
        · simp [hin, hk, hd]
        · have hin2 : st.inProcedure = false := by simpa using hin
          simp [hin2, hk, hd]
      · have hd2 : occursIn "$$".data (pyStrip l) = false := by simpa using hd
        rw [if_neg (by simp [hd2])]
        by_cases hin : st.inProcedure = true
        · simp [hin, hk, hd2]
        · have hin2 : st.inProcedure = false := by simpa using hin
          by_cases he : pyEndsWith (pyStrip l) ";".data = true
          · simp [hin2, he, hk, hd2]
          · have he2 : pyEndsWith (pyStrip l) ";".data = false := by simpa using he
            simp [hin2, he2, hk, hd2]

theorem occursIn_example : occursIn "ID: ".data "OK ID: R-1".data = true := by decide

theorem pySplit_example :
    pySplitL "ID: ".data "SUCCESS ID: R-1".data = ["SUCCESS ".data, "R-1".data] := by decide

end GdprRtbf
